import Mathlib

/-
Verification of the background page of the reddit-moderator-toolbox
webextension (src/unnamed/part_000 and
src/extension/data/background/handlers/notifications.js), as a shallow
embedding: host APIs (chrome.notifications, chrome.tabs, setTimeout,
localStorage, cookies) are modelled as explicit state and effect lists,
and each background function becomes a pure Lean function on that state.
-/

/-! ## Notification lifecycle manager

Embeds `notificationData`, `sendNativeNotification`, `sendPageNotification`,
`clearNotification`, `onClickNotification` and the `tb-notification` handler
(notifications.js lines 6-173; part_000 lines 10-154). -/

/-- Variant tag stored in `notificationData[id].type`: the source stores
the string `native` or `page`. -/
inductive NotifVariant
  | native
  | page
  deriving DecidableEq, Repr

/-- Metadata record stored in `notificationData[notificationID]`. -/
structure NotifMeta where
  variant : NotifVariant
  url : String
  modHash : String
  markreadid : Option String
  deriving DecidableEq, Repr

/-- The `notificationData` object: an association from notification id to
metadata. A new binding shadows an older one, matching JS property
assignment. -/
abbrev NotifData := List (String × NotifMeta)

/-- Property read `notificationData[notificationID]`: `none` models the JS
value `undefined`. -/
def lookupN (data : NotifData) (id : String) : Option NotifMeta :=
  (data.find? (fun p => p.1 == id)).map Prod.snd

/-- Property delete `delete notificationData[notificationID]`. -/
def eraseN (data : NotifData) (id : String) : NotifData :=
  data.filter (fun p => !(p.1 == id))

/-- Observable side effects of the notification code on its host
collaborators. -/
inductive Effect
  | hostClear (id : String)
  | broadcastClear (id : String)
  | hostCreate (id : String) (title : String) (body : String)
  | broadcastShow (id : String) (title : String) (body : String)
  | postMarkRead (markreadid : String) (modHash : String)
  | openTab (url : String)
  deriving DecidableEq, Repr

/-- Embeds `clearNotification` (notifications.js lines 102-126). When no
metadata exists the function returns early; for a native record it calls
`chrome.notifications.clear` and does not touch `notificationData`; for a
page record it broadcasts `tb-clear-page-notification` and deletes the
record. -/
def clearNotification (data : NotifData) (id : String) : NotifData × List Effect :=
  match lookupN data id with
  | none => (data, [])
  | some metadata =>
    match metadata.variant with
    | NotifVariant.native => (data, [Effect.hostClear id])
    | NotifVariant.page => (eraseN data id, [Effect.broadcastClear id])

/-- JS runtime exceptions that the embedded functions can raise. -/
inductive JSError
  | typeError (msg : String)
  deriving DecidableEq, Repr

/-- Embeds `onClickNotification` (notifications.js lines 132-156). Reading
`notificationData[notificationID].markreadid` when the record is absent is
the JS property access on `undefined`, which throws a TypeError. -/
def onClickNotification (data : NotifData) (id : String) :
    Except JSError (NotifData × List Effect) :=
  match lookupN data id with
  | none =>
    Except.error (JSError.typeError "Cannot read properties of undefined (reading markreadid)")
  | some metadata =>
    let markEff := match metadata.markreadid with
      | some mid => [Effect.postMarkRead mid metadata.modHash]
      | none => []
    let r := clearNotification data id
    Except.ok (r.1, markEff ++ [Effect.openTab metadata.url] ++ r.2)

/-- Host environment consulted during a notification send: whether
`chrome.notifications.getPermissionLevel` exists, the permission string it
reports, and the id the host (or `uuidv4`) produces for the new
notification. -/
structure NotifEnv where
  permissionSupported : Bool
  permission : String
  newId : String
  deriving DecidableEq, Repr

/-- Embeds `sendNativeNotification` (notifications.js lines 23-54): the
permission check rejects (result `none`) unless permission introspection is
unsupported or reports `granted`; on success the host creates the
notification and the metadata record is registered under the host id. -/
def sendNativeNotification (env : NotifEnv) (title : String) (body : String)
    (url : String) (modHash : String) (markreadid : Option String) (data : NotifData) :
    Option (NotifData × String × List Effect) :=
  if env.permissionSupported && !(env.permission == "granted") then none
  else
    some ((env.newId,
      { variant := NotifVariant.native, url := url, modHash := modHash,
        markreadid := markreadid }) :: data,
      env.newId, [Effect.hostCreate env.newId title body])

/-- Embeds `sendPageNotification` (notifications.js lines 60-84): generates
an id, registers the record immediately, and broadcasts
`tb-show-page-notification`. No permission check applies. -/
def sendPageNotification (env : NotifEnv) (title : String) (body : String)
    (url : String) (modHash : String) (markreadid : Option String) (data : NotifData) :
    NotifData × String × List Effect :=
  ((env.newId,
    { variant := NotifVariant.page, url := url, modHash := modHash,
      markreadid := markreadid }) :: data,
    env.newId, [Effect.broadcastShow env.newId title body])

/-- Notification system state: the metadata object plus the pending
`setTimeout` auto-expiry timers, each a pair of absolute fire time and
notification id. -/
structure NotifSys where
  data : NotifData
  timers : List (Nat × String)
  deriving DecidableEq, Repr

/-- The `notificationTimeout` constant of the `tb-notification` handler. -/
def notificationTimeout : Nat := 6000

/-- Embeds the `tb-notification` handler (notifications.js lines 87-96):
pick the variant by the `native` flag, send, and once the send resolves
with an id, arm `setTimeout(() => clearNotification(id), 6000)`. A native
permission rejection leaves the promise rejected: no record and no timer. -/
def tbNotification (env : NotifEnv) (now : Nat) (native : Bool)
    (title : String) (body : String) (url : String) (modHash : String)
    (markreadid : Option String) (sys : NotifSys) : NotifSys × List Effect :=
  if native then
    match sendNativeNotification env title body url modHash markreadid sys.data with
    | none => (sys, [])
    | some r =>
      ({ data := r.1, timers := sys.timers ++ [(now + notificationTimeout, r.2.1)] }, r.2.2)
  else
    let r := sendPageNotification env title body url modHash markreadid sys.data
    ({ data := r.1, timers := sys.timers ++ [(now + notificationTimeout, r.2.1)] }, r.2.2)

/-- An explicit clear request (`tb-page-notification-close` handler or a
direct `clearNotification` call): runs `clearNotification` on the metadata;
the source never cancels the pending auto-expiry `setTimeout`, so the timer
list is untouched. -/
def clearSys (sys : NotifSys) (id : String) : NotifSys × List Effect :=
  let r := clearNotification sys.data id
  ({ sys with data := r.1 }, r.2)

/-- Firing of a pending auto-expiry timer: the timer leaves the pending
list and its callback runs `clearNotification(id)`. -/
def timerFire (sys : NotifSys) (t : Nat × String) : NotifSys × List Effect :=
  let r := clearNotification sys.data t.2
  ({ data := r.1, timers := sys.timers.erase t }, r.2)

/-- Metadata absence survives `eraseN`: deleting an id leaves no binding
for that id to be found. -/
theorem lookupN_eraseN (data : NotifData) (id : String) :
    lookupN (eraseN data id) id = none := by
  rw [lookupN, Option.map_eq_none']
  rw [List.find?_eq_none]
  intro p hp
  rw [eraseN, List.mem_filter] at hp
  simpa using hp.2

/-- Concrete metadata object holding one native notification record. -/
def c2Data : NotifData :=
  [("n1", { variant := NotifVariant.native, url := "https://old.reddit.com/message",
            modHash := "mh", markreadid := none })]

/-- Claim C2 counterexample: for a native record, `clearNotification` does
not delete the record, so a second call with the same id issues a second
host-level clear. -/
theorem c2_counterexample :
    (clearNotification c2Data "n1").2 = [Effect.hostClear "n1"] ∧
    lookupN (clearNotification c2Data "n1").1 "n1" ≠ none ∧
    (clearNotification (clearNotification c2Data "n1").1 "n1").2 = [Effect.hostClear "n1"] := by
  decide

/-- Claim C2 (amended): clearNotification with an unknown id is a no-op;
for an in-context record it broadcasts the clear event, deletes the record,
and a second call is a no-op; for a native record it issues the host-level
clear but leaves the record in place. -/
theorem c2_clear_amended (data : NotifData) (id : String) (m : NotifMeta)
    (h : lookupN data id = some m) :
    (m.variant = NotifVariant.page →
      (clearNotification data id).2 = [Effect.broadcastClear id] ∧
      lookupN (clearNotification data id).1 id = none ∧
      clearNotification (clearNotification data id).1 id = ((clearNotification data id).1, [])) ∧
    (m.variant = NotifVariant.native →
      (clearNotification data id).2 = [Effect.hostClear id] ∧
      (clearNotification data id).1 = data) ∧
    (∀ d : NotifData, lookupN d id = none → clearNotification d id = (d, [])) := by
  refine ⟨?_, ?_, ?_⟩
  · intro hv
    have hc : clearNotification data id = (eraseN data id, [Effect.broadcastClear id]) := by
      simp [clearNotification, h, hv]
    rw [hc]
    exact ⟨rfl, lookupN_eraseN data id, by simp [clearNotification, lookupN_eraseN]⟩
  · intro hv
    simp [clearNotification, h, hv]
  · intro d hd
    simp [clearNotification, hd]

/-- Claim C2 amended witness: a concrete in-context record is deleted by
the first clear and the second clear is a no-op. -/
def c2PageData : NotifData :=
  [("p9", { variant := NotifVariant.page, url := "https://old.reddit.com/message",
            modHash := "mh", markreadid := none })]

theorem c2_clear_amended_witness :
    (clearNotification c2PageData "p9").2 = [Effect.broadcastClear "p9"] ∧
    lookupN (clearNotification c2PageData "p9").1 "p9" = none ∧
    clearNotification (clearNotification c2PageData "p9").1 "p9"
      = ((clearNotification c2PageData "p9").1, []) :=
  (c2_clear_amended c2PageData "p9"
    { variant := NotifVariant.page, url := "https://old.reddit.com/message",
      modHash := "mh", markreadid := none } rfl).1 rfl

/-- Claim C10: click handling requires a live record: when no record exists
for the id, onClickNotification raises a TypeError (the source reads
`.markreadid` off an undefined record), while clearNotification on the same
id is a silent no-op. -/
theorem c10_click_requires_record (data : NotifData) (id : String)
    (h : lookupN data id = none) :
    (∃ e, onClickNotification data id = Except.error e) ∧
    clearNotification data id = (data, []) := by
  constructor
  · refine ⟨JSError.typeError "Cannot read properties of undefined (reading markreadid)", ?_⟩
    simp [onClickNotification, h]
  · simp [clearNotification, h]

/-- Claim C10 witness: clicking an id that was never created fails with an
error while clearing it is a no-op. -/
theorem c10_click_requires_record_witness :
    (∃ e, onClickNotification [] "missing" = Except.error e) ∧
    clearNotification [] "missing" = ([], []) :=
  c10_click_requires_record [] "missing" rfl

/-- Concrete environment for the C4 counterexample: an in-context
notification whose generated id is `p1`. -/
def c4Env : NotifEnv :=
  { permissionSupported := true, permission := "granted", newId := "p1" }

/-- Claim C4 counterexample: after creating an in-context notification at
time 0 and clearing it explicitly before 6000 ms, the auto-expiry timer is
still pending (the source never cancels the `setTimeout`). -/
theorem c4_counterexample :
    (clearSys (tbNotification c4Env 0 false "t" "b" "u" "mh" none
        { data := [], timers := [] }).1 "p1").1.timers = [(6000, "p1")] ∧
    (clearSys (tbNotification c4Env 0 false "t" "b" "u" "mh" none
        { data := [], timers := [] }).1 "p1").1.timers ≠ [] := by
  decide

/-- Claim C4 (amended): for either variant, creation (the send promise
resolving with an id, which for native requires the permission check to
pass) arms exactly one auto-expiry timer for the new record, due exactly
6000 ms after creation; an explicit clear before that moment does not
cancel the timer, which stays pending; for an in-context record the clear
deletes the record, so when the timer later fires its `clearNotification`
call is a no-op with no side effects. -/
theorem c4_expiry_amended (env : NotifEnv) (now : Nat) (native : Bool)
    (title body url modHash : String) (markreadid : Option String) (sys : NotifSys)
    (hperm : native = true → (env.permissionSupported && !(env.permission == "granted")) = false)
    (htimer : ∀ p ∈ sys.timers, p.2 ≠ env.newId) :
    ((tbNotification env now native title body url modHash markreadid sys).1.timers.filter
        (fun p => p.2 == env.newId)) = [(now + notificationTimeout, env.newId)] ∧
    (clearSys (tbNotification env now native title body url modHash markreadid sys).1
        env.newId).1.timers
      = (tbNotification env now native title body url modHash markreadid sys).1.timers ∧
    (native = false →
      lookupN (clearSys (tbNotification env now native title body url modHash markreadid sys).1
          env.newId).1.data env.newId = none ∧
      (timerFire (clearSys (tbNotification env now native title body url modHash markreadid
          sys).1 env.newId).1 (now + notificationTimeout, env.newId)).1.data
        = (clearSys (tbNotification env now native title body url modHash markreadid sys).1
            env.newId).1.data ∧
      (timerFire (clearSys (tbNotification env now native title body url modHash markreadid
          sys).1 env.newId).1 (now + notificationTimeout, env.newId)).2 = []) := by
  have hfilter : (sys.timers.filter (fun p => p.2 == env.newId)) = [] := by
    rw [List.filter_eq_nil_iff]
    intro p hp
    simpa using htimer p hp
  have htimers : (tbNotification env now native title body url modHash markreadid sys).1.timers
      = sys.timers ++ [(now + notificationTimeout, env.newId)] := by
    cases native
    · simp [tbNotification, sendPageNotification]
    · simp [tbNotification, sendNativeNotification, hperm rfl]
  refine ⟨?_, ?_, ?_⟩
  · rw [htimers, List.filter_append, hfilter]
    simp
  · rfl
  · intro hnat
    subst hnat
    set m : NotifMeta :=
      { variant := NotifVariant.page, url := url, modHash := modHash,
        markreadid := markreadid } with hm
    have hsend :
        (tbNotification env now false title body url modHash markreadid sys).1
          = { data := (env.newId, m) :: sys.data,
              timers := sys.timers ++ [(now + notificationTimeout, env.newId)] } := by
      simp [tbNotification, sendPageNotification, hm]
    have hlook : lookupN ((env.newId, m) :: sys.data) env.newId = some m := by
      simp [lookupN]
    have hvar : m.variant = NotifVariant.page := by rw [hm]
    have hclear : clearSys (tbNotification env now false title body url modHash markreadid
        sys).1 env.newId
        = ({ data := eraseN ((env.newId, m) :: sys.data) env.newId,
             timers := sys.timers ++ [(now + notificationTimeout, env.newId)] },
           [Effect.broadcastClear env.newId]) := by
      rw [hsend]
      simp [clearSys, clearNotification, hlook, hvar]
    refine ⟨?_, ?_, ?_⟩
    · rw [hclear]
      exact lookupN_eraseN _ _
    · rw [hclear]
      simp [timerFire, clearNotification, lookupN_eraseN]
    · rw [hclear]
      simp [timerFire, clearNotification, lookupN_eraseN]

/-- Environment for the C4 witness. -/
def c4wEnv : NotifEnv :=
  { permissionSupported := true, permission := "granted", newId := "w1" }

/-- Claim C4 amended witness: a native notification created at time 0 in
an empty system with permission granted arms its single expiry timer and
keeps it after the explicit clear; an in-context creation under the same
environment has its record deleted by the explicit clear. -/
theorem c4_expiry_amended_witness :
    ((tbNotification c4wEnv 0 true "t" "b" "u" "mh" none
        { data := [], timers := [] }).1.timers.filter (fun p => p.2 == c4wEnv.newId))
      = [(0 + notificationTimeout, c4wEnv.newId)] ∧
    (clearSys (tbNotification c4wEnv 0 true "t" "b" "u" "mh" none
        { data := [], timers := [] }).1 c4wEnv.newId).1.timers
      = (tbNotification c4wEnv 0 true "t" "b" "u" "mh" none
        { data := [], timers := [] }).1.timers ∧
    lookupN (clearSys (tbNotification c4wEnv 0 false "t" "b" "u" "mh" none
        { data := [], timers := [] }).1 c4wEnv.newId).1.data c4wEnv.newId = none :=
  ⟨(c4_expiry_amended c4wEnv 0 true "t" "b" "u" "mh" none { data := [], timers := [] }
      (fun _ => by decide) (by simp)).1,
   (c4_expiry_amended c4wEnv 0 true "t" "b" "u" "mh" none { data := [], timers := [] }
      (fun _ => by decide) (by simp)).2.1,
   ((c4_expiry_amended c4wEnv 0 false "t" "b" "u" "mh" none { data := [], timers := [] }
      (fun h => nomatch h) (by simp)).2.2 rfl).1⟩

/-! ## Cache invalidation scheduler

Embeds `cachedata`, `emptyCacheTimeout` and `initCachetimeout`
(part_000 lines 605-712). -/

/-- JS number as observed through strict equality: either NaN (what
`parseInt` yields on a non-numeric string) or an integer. -/
inductive JSNum
  | nan
  | num (n : Int)
  deriving DecidableEq, Repr

/-- JS strict equality `===` restricted to numbers: NaN is equal to
nothing, including itself. -/
def jsStrictEq : JSNum → JSNum → Bool
  | JSNum.nan, _ => false
  | _, JSNum.nan => false
  | JSNum.num a, JSNum.num b => a == b

/-- Digit accumulation for `parseIntJS`. -/
def digitsToInt (ds : List Char) : Int :=
  ds.foldl (fun acc c => acc * 10 + ((c.toNat : Int) - 48)) 0

/-- Core of `parseInt`: read leading decimal digits; NaN when there are
none. -/
def parseIntCore (sign : Int) (cs : List Char) : JSNum :=
  let digits := cs.takeWhile Char.isDigit
  if digits.isEmpty then JSNum.nan else JSNum.num (sign * digitsToInt digits)

/-- Host builtin `parseInt` (radix 10) as used by `initCachetimeout` to
coerce a stored string to a number: skip leading spaces, read an optional
sign and then leading digits; NaN when no digits follow. -/
def parseIntJS (s : String) : JSNum :=
  match s.toList.dropWhile (fun c => c.toNat == 32) with
  | '-' :: rest => parseIntCore (-1) rest
  | '+' :: rest => parseIntCore 1 rest
  | rest => parseIntCore 1 rest

/-- A value found in the settings blob under one of the two length keys:
the source distinguishes only `typeof v === number` from everything else,
which it feeds to `parseInt`. -/
inductive SettingVal
  | num (n : JSNum)
  | str (s : String)
  deriving DecidableEq, Repr

/-- The coercion applied by `initCachetimeout` to a stored length value. -/
def coerceLength : SettingVal → JSNum
  | SettingVal.num n => n
  | SettingVal.str s => parseIntJS s

/-- The two keys of `TBsettingsObject.tbsettings` that `initCachetimeout`
reads: `Toolbox.Utils.shortLength` and `Toolbox.Utils.longLength`; `none`
models an undefined key. -/
structure TBSettings where
  shortLength : Option SettingVal
  longLength : Option SettingVal
  deriving DecidableEq, Repr

/-- One of the two cache tiers. -/
inductive Tier
  | short
  | long
  deriving DecidableEq, Repr

/-- Scheduler state: `cachedata.currentDurations`, the stored timeout
handles `cachedata.timeouts`, plus the host view of armed timers (`live`:
pairs of handle and tier) and a fresh-handle counter. -/
structure SchedState where
  curShort : JSNum
  curLong : JSNum
  hShort : Option Nat
  hLong : Option Nat
  live : List (Nat × Tier)
  next : Nat
  deriving DecidableEq, Repr

/-- Stored timeout handle `cachedata.timeouts[cacheType]`. -/
def handleOf (st : SchedState) : Tier → Option Nat
  | Tier.short => st.hShort
  | Tier.long => st.hLong

/-- Observable side effects of the scheduler. -/
inductive SchedEffect
  | clearTierKeys (t : Tier)
  | broadcastCacheTimeout (t : Tier)
  | armTimer (h : Nat) (t : Tier) (d : JSNum)
  deriving DecidableEq, Repr

/-- Embeds `emptyCacheTimeout` (part_000 lines 620-658): clear the timeout
stored for the tier (`clearTimeout` of an undefined handle is a no-op),
reset the tier keys in localStorage to empty sentinels, broadcast
`tb-cache-timeout` to the reddit tabs, and arm a fresh timer for the tier
recorded back into `cachedata.timeouts`. -/
def emptyCacheTimeout (d : JSNum) (t : Tier) (st : SchedState) :
    SchedState × List SchedEffect :=
  let live1 := st.live.filter (fun p => !(handleOf st t == some p.1))
  ({ curShort := st.curShort, curLong := st.curLong,
     hShort := if t = Tier.short then some st.next else st.hShort,
     hLong := if t = Tier.long then some st.next else st.hLong,
     live := live1 ++ [(st.next, t)],
     next := st.next + 1 },
   [SchedEffect.clearTierKeys t, SchedEffect.broadcastCacheTimeout t,
    SchedEffect.armTimer st.next t d])

/-- Embeds `initCachetimeout` (part_000 lines 664-706). Each tier compares
the configured duration (default 15 or 45, strings coerced via `parseInt`)
to the duration currently in effect under JS strict inequality, and when
different (or forced) re-runs `emptyCacheTimeout` for that tier. The long
branch of the source assigns `cachedata.currentDurations.short` rather
than `.long` before rescheduling, and this embedding reproduces that
assignment exactly. -/
def initCachetimeout (force : Bool) (settings : TBSettings) (st : SchedState) :
    SchedState × List SchedEffect :=
  let storageShortLength := match settings.shortLength with
    | none => JSNum.num 15
    | some v => coerceLength v
  let r1 :=
    if !jsStrictEq storageShortLength st.curShort || force then
      emptyCacheTimeout storageShortLength Tier.short
        { st with curShort := storageShortLength }
    else (st, [])
  let st1 := r1.1
  let storageLongLength := match settings.longLength with
    | none => JSNum.num 45
    | some v => coerceLength v
  if !jsStrictEq storageLongLength st1.curLong || force then
    let r2 := emptyCacheTimeout storageLongLength Tier.long
      { st1 with curShort := storageShortLength }
    (r2.1, r1.2 ++ r2.2)
  else (st1, r1.2)

/-- Process-start scheduler state: durations zero, no timers. -/
def initSched : SchedState :=
  { curShort := JSNum.num 0, curLong := JSNum.num 0, hShort := none, hLong := none,
    live := [], next := 0 }

/-- Settings used as the C3 failing input. -/
def c3Settings : TBSettings :=
  { shortLength := some (SettingVal.num (JSNum.num 10)),
    longLength := some (SettingVal.num (JSNum.num 45)) }

/-- Claim C3: applying a reconfiguration with long duration 45 records 45
as the long duration in effect, so a second settings update observing 45
does not re-trigger the long clear. The code evaluated at this input shows
the opposite: the long branch assigns the short field, the recorded long
duration stays 0, and the second (unforced) update re-runs the
clear-and-reschedule for the long tier while the correctly recorded short
tier is left alone. -/
theorem c3_long_duration_not_recorded :
    (initCachetimeout true c3Settings initSched).1.curLong = JSNum.num 0 ∧
    (initCachetimeout true c3Settings initSched).1.curShort = JSNum.num 10 ∧
    SchedEffect.clearTierKeys Tier.long ∈
      (initCachetimeout false c3Settings (initCachetimeout true c3Settings initSched).1).2 ∧
    SchedEffect.clearTierKeys Tier.short ∉
      (initCachetimeout false c3Settings (initCachetimeout true c3Settings initSched).1).2 := by
  decide

/-- Host timers currently armed for a tier: the handles of the live timers
tagged with that tier. -/
def liveFor (st : SchedState) (t : Tier) : List Nat :=
  (st.live.filter (fun p => p.2 == t)).map Prod.fst

/-- A finite sequence of reconfigurations, each running
`emptyCacheTimeout` with some duration on some tier. -/
def runSched (ops : List (JSNum × Tier)) (st : SchedState) : SchedState :=
  ops.foldl (fun s op => (emptyCacheTimeout op.1 op.2 s).1) st

/-- Scheduler timer invariant: the live timers of each tier are exactly
the stored handle for that tier, all handles are below the freshness
counter, and the two tiers never share a handle. -/
def SchedInv (st : SchedState) : Prop :=
  (∀ t, liveFor st t = (handleOf st t).toList) ∧
  (∀ p ∈ st.live, p.1 < st.next) ∧
  (∀ t h, handleOf st t = some h → h < st.next) ∧
  (∀ h, st.hShort = some h → st.hLong ≠ some h)

theorem step_live (d : JSNum) (t : Tier) (st : SchedState) :
    (emptyCacheTimeout d t st).1.live
      = st.live.filter (fun p => !(handleOf st t == some p.1)) ++ [(st.next, t)] := rfl

theorem step_next (d : JSNum) (t : Tier) (st : SchedState) :
    (emptyCacheTimeout d t st).1.next = st.next + 1 := rfl

theorem step_handle_self (d : JSNum) (t : Tier) (st : SchedState) :
    handleOf (emptyCacheTimeout d t st).1 t = some st.next := by
  cases t <;> simp [emptyCacheTimeout, handleOf]

theorem step_handle_other (d : JSNum) (t t' : Tier) (st : SchedState) (hne : t' ≠ t) :
    handleOf (emptyCacheTimeout d t st).1 t' = handleOf st t' := by
  cases t <;> cases t' <;> simp_all [emptyCacheTimeout, handleOf]

/-- A list of tier-tagged pairs whose members all carry tag `t` and whose
handles are exactly `[h]` is the singleton `[(h, t)]`. -/
theorem filter_tier_eq_of (l : List (Nat × Tier)) (t : Tier) (h : Nat)
    (hall : ∀ p ∈ l, p.2 = t) (hmap : l.map Prod.fst = [h]) : l = [(h, t)] := by
  cases l with
  | nil => simp at hmap
  | cons p rest =>
    simp only [List.map_cons, List.cons.injEq] at hmap
    obtain ⟨hp1, hrest⟩ := hmap
    have hrest0 : rest = [] := List.map_eq_nil.mp hrest
    subst hrest0
    have hp2 : p.2 = t := hall p (by simp)
    simp [List.cons.injEq, Prod.ext_iff, hp1, hp2]

/-- Under the invariant, the live timers of a tier are the singleton at
the stored handle (or nothing when no handle is stored). -/
theorem live_filter_of_inv (st : SchedState) (t : Tier) (h1 : ∀ u, liveFor st u = (handleOf st u).toList) :
    st.live.filter (fun p => p.2 == t)
      = (match handleOf st t with
          | some h => [(h, t)]
          | none => []) := by
  cases hh : handleOf st t with
  | none =>
    have := h1 t
    rw [hh] at this
    exact List.map_eq_nil.mp this
  | some h =>
    refine filter_tier_eq_of _ t h ?_ ?_
    · intro p hp
      have := List.of_mem_filter hp
      simpa using this
    · have := h1 t
      rw [hh] at this
      exact this

theorem liveFor_step_self (d : JSNum) (t : Tier) (st : SchedState)
    (h1 : ∀ u, liveFor st u = (handleOf st u).toList) :
    liveFor (emptyCacheTimeout d t st).1 t = [st.next] := by
  unfold liveFor
  rw [step_live, List.filter_append, List.filter_comm, live_filter_of_inv st t h1]
  cases hh : handleOf st t with
  | none => simp
  | some h => simp [hh]

theorem liveFor_step_other (d : JSNum) (t t' : Tier) (st : SchedState) (hne : t' ≠ t)
    (hinv : SchedInv st) :
    liveFor (emptyCacheTimeout d t st).1 t' = liveFor st t' := by
  obtain ⟨h1, _h2, h3, h4⟩ := hinv
  unfold liveFor
  rw [step_live, List.filter_append, List.filter_comm]
  have hlast : List.filter (fun p => p.2 == t') [(st.next, t)] = [] := by
    simp [Ne.symm hne]
  rw [hlast, List.append_nil]
  congr 1
  rw [List.filter_eq_self]
  intro p hp
  rw [live_filter_of_inv st t' h1] at hp
  cases hh : handleOf st t with
  | none => simp [hh]
  | some h =>
    cases hh' : handleOf st t' with
    | none => rw [hh'] at hp; simp at hp
    | some g =>
      rw [hh'] at hp
      simp only [List.mem_singleton] at hp
      subst hp
      have hgh : g ≠ h := by
        intro hgh
        subst hgh
        cases t <;> cases t' <;> simp [handleOf] at hh hh'
        · exact hne rfl
        · exact h4 g hh hh'
        · exact h4 g hh' hh
        · exact hne rfl
      simp [Ne.symm hgh]

theorem schedInv_step (d : JSNum) (t : Tier) (st : SchedState) (hinv : SchedInv st) :
    SchedInv (emptyCacheTimeout d t st).1 := by
  obtain ⟨h1, h2, h3, h4⟩ := hinv
  refine ⟨?_, ?_, ?_, ?_⟩
  · intro t'
    by_cases ht : t' = t
    · subst ht
      rw [liveFor_step_self d t' st h1, step_handle_self]
      rfl
    · rw [liveFor_step_other d t t' st ht ⟨h1, h2, h3, h4⟩, step_handle_other d t t' st ht]
      exact h1 t'
  · intro p hp
    rw [step_live] at hp
    rw [step_next]
    rcases List.mem_append.mp hp with hl | hr
    · exact Nat.lt_succ_of_lt (h2 p (List.mem_of_mem_filter hl))
    · have : p = (st.next, t) := by simpa using hr
      rw [this]
      exact Nat.lt_succ_self _
  · intro t' h hh
    rw [step_next]
    by_cases ht : t' = t
    · subst ht
      rw [step_handle_self] at hh
      cases hh
      exact Nat.lt_succ_self _
    · rw [step_handle_other d t t' st ht] at hh
      exact Nat.lt_succ_of_lt (h3 t' h hh)
  · intro h hS hL
    cases t with
    | short =>
      simp only [emptyCacheTimeout] at hS hL
      simp at hS hL
      subst hS
      exact Nat.lt_irrefl st.next (h3 Tier.long st.next hL)
    | long =>
      simp only [emptyCacheTimeout] at hS hL
      simp at hS hL
      subst hL
      exact Nat.lt_irrefl st.next (h3 Tier.short st.next hS)

theorem schedInv_init : SchedInv initSched := by
  refine ⟨fun t => by cases t <;> rfl, ?_, ?_, ?_⟩
  · intro p hp
    simp [initSched] at hp
  · intro t h hh
    cases t <;> simp [handleOf, initSched] at hh
  · intro h hS
    simp [initSched] at hS

theorem runSched_cons (op : JSNum × Tier) (ops : List (JSNum × Tier)) (st : SchedState) :
    runSched (op :: ops) st = runSched ops (emptyCacheTimeout op.1 op.2 st).1 := rfl

theorem schedInv_run (ops : List (JSNum × Tier)) (st : SchedState) (hinv : SchedInv st) :
    SchedInv (runSched ops st) := by
  induction ops generalizing st with
  | nil => exact hinv
  | cons op rest ih =>
    rw [runSched_cons]
    exact ih _ (schedInv_step op.1 op.2 st hinv)

theorem handle_isSome_step (d : JSNum) (t t' : Tier) (st : SchedState)
    (h : (handleOf st t').isSome) :
    (handleOf (emptyCacheTimeout d t st).1 t').isSome := by
  by_cases ht : t' = t
  · subst ht
    rw [step_handle_self]
    rfl
  · rw [step_handle_other d t t' st ht]
    exact h

theorem handle_isSome_run (ops : List (JSNum × Tier)) (st : SchedState) (t : Tier)
    (h : (handleOf st t).isSome) :
    (handleOf (runSched ops st) t).isSome := by
  induction ops generalizing st with
  | nil => exact h
  | cons op rest ih =>
    rw [runSched_cons]
    exact ih _ (handle_isSome_step op.1 op.2 t st h)

theorem handle_run_of_mem (ops : List (JSNum × Tier)) (st : SchedState) (t : Tier)
    (hmem : t ∈ ops.map Prod.snd) :
    (handleOf (runSched ops st) t).isSome := by
  induction ops generalizing st with
  | nil => simp at hmem
  | cons op rest ih =>
    rw [runSched_cons]
    by_cases hop : op.2 = t
    · apply handle_isSome_run
      subst hop
      rw [step_handle_self]
      rfl
    · simp only [List.map_cons, List.mem_cons] at hmem
      rcases hmem with heq | hmem
    
      · exact absurd heq.symm hop
      · exact ih _ hmem

/-- Claim C7: starting from process start, after any finite sequence of
reconfigurations that touches a tier at least once, exactly one timer is
live for that tier, and a further reconfiguration of that tier leaves the
other tier of a well-formed state untouched. -/
theorem c7_one_timer_per_tier (ops : List (JSNum × Tier)) (t : Tier)
    (hmem : t ∈ ops.map Prod.snd) :
    (liveFor (runSched ops initSched) t).length = 1 ∧
    (∀ (d : JSNum) (t' : Tier), t' ≠ t →
      liveFor (emptyCacheTimeout d t (runSched ops initSched)).1 t' =
        liveFor (runSched ops initSched) t') := by
  have hinv : SchedInv (runSched ops initSched) := schedInv_run ops initSched schedInv_init
  constructor
  · rw [hinv.1 t]
    have hs := handle_run_of_mem ops initSched t hmem
    cases hh : handleOf (runSched ops initSched) t with
    | none => rw [hh] at hs; simp at hs
    | some h => rfl
  · intro d t' hne
    exact liveFor_step_other d t t' (runSched ops initSched) hne hinv

/-- Claim C7 witness: one reconfiguration of the short tier leaves exactly
one live short timer, and a further short reconfiguration does not touch
the long timers. -/
theorem c7_one_timer_per_tier_witness :
    (liveFor (runSched [(JSNum.num 15, Tier.short)] initSched) Tier.short).length = 1 ∧
    liveFor (emptyCacheTimeout (JSNum.num 30) Tier.short
        (runSched [(JSNum.num 15, Tier.short)] initSched)).1 Tier.long =
      liveFor (runSched [(JSNum.num 15, Tier.short)] initSched) Tier.long :=
  ⟨(c7_one_timer_per_tier [(JSNum.num 15, Tier.short)] Tier.short (by decide)).1,
   (c7_one_timer_per_tier [(JSNum.num 15, Tier.short)] Tier.short (by decide)).2
     (JSNum.num 30) Tier.long (by decide)⟩

/-! ## Handler registry and message router

Embeds `messageHandlers` (a JS `Map`) and the
`browser.runtime.onMessage` listener (part_000 lines 717-860;
registrations in notifications.js lines 87, 159, 163). -/

/-- JS `Map.prototype.get`. -/
def mapGet {α : Type} (m : List (String × α)) (k : String) : Option α :=
  (m.find? (fun p => p.1 == k)).map Prod.snd

/-- JS `Map.prototype.set`: update the existing entry in place when the
key is present, otherwise append a new entry. The operation is total; it
never rejects a key that is already present. -/
def mapSet {α : Type} (m : List (String × α)) (k : String) (v : α) : List (String × α) :=
  if (m.find? (fun p => p.1 == k)).isSome then
    m.map (fun p => if p.1 == k then (k, v) else p)
  else m ++ [(k, v)]

/-- Claim C5 counterexample: registering a second handler for
`tb-notification` succeeds and silently replaces the first, instead of
being rejected as an error (handlers stand in as natural numbers so that
replacement is observable). -/
theorem c5_counterexample :
    mapSet (mapSet ([] : List (String × Nat)) "tb-notification" 1) "tb-notification" 2
      = [("tb-notification", 2)] ∧
    mapGet (mapSet (mapSet ([] : List (String × Nat)) "tb-notification" 1)
      "tb-notification" 2) "tb-notification" = some 2 := by
  decide

/-- A present key keeps pointing at the replacement value after the
in-place update branch of the JS Map set. -/
theorem mapGet_map_update {α : Type} (m : List (String × α)) (k : String) (g : α) :
    (m.find? (fun p => p.1 == k)).isSome →
    mapGet (m.map (fun p => if p.1 == k then (k, g) else p)) k = some g := by
  intro h
  induction m with
  | nil => simp at h
  | cons p rest ih =>
    by_cases hp : p.1 = k
    · simp [mapGet, hp]
    · have h2 : (rest.find? (fun q => q.1 == k)).isSome := by
        rw [List.find?_isSome] at h ⊢
        obtain ⟨a, ha, hak⟩ := h
        rcases List.mem_cons.mp ha with rfl | ha2
        · exact absurd (by simpa using hak) hp
        · exact ⟨a, ha2, hak⟩
      have := ih h2
      simpa [mapGet, hp] using this

/-- Claim C5 (amended): the registry holds at most one handler per action,
but a second registration for an action that already has a handler
silently replaces the existing handler (JS `Map.set` semantics) without
any error; the number of registered actions is unchanged. -/
theorem c5_register_replaces {α : Type} (m : List (String × α)) (k : String) (f g : α)
    (h : mapGet m k = some f) :
    mapGet (mapSet m k g) k = some g ∧ (mapSet m k g).length = m.length := by
  have hsome : (m.find? (fun p => p.1 == k)).isSome := by
    rw [mapGet] at h
    cases hf : m.find? (fun p => p.1 == k) with
    | none => rw [hf] at h; simp at h
    | some p => rfl
  constructor
  · rw [mapSet, if_pos hsome]
    exact mapGet_map_update m k g hsome
  · rw [mapSet, if_pos hsome, List.length_map]

/-- Claim C5 amended witness: replacing the only handler of a one-entry
registry. -/
theorem c5_register_replaces_witness :
    mapGet (mapSet [("tb-cache", 1)] "tb-cache" 2) "tb-cache" = some 2 ∧
    (mapSet [("tb-cache", (1 : Nat))] "tb-cache" 2).length = 1 :=
  c5_register_replaces [("tb-cache", 1)] "tb-cache" 1 2 (by decide)

/-- An inbound runtime message as seen by the dispatch guards: the
listener inspects only the `action` tag before selecting a branch. -/
structure Request where
  action : String
  deriving DecidableEq, Repr

/-- The literal action strings tested by the if-chain of the
`browser.runtime.onMessage` listener (part_000 lines 726-822). -/
def builtinActions : List String :=
  ["tb-reload", "tb-global", "tb-cache-force-timeout", "tb-notification",
   "tb-page-notification-click", "tb-page-notification-close", "tb-request", "tb-cache"]

/-- Embeds the dispatch skeleton of the `browser.runtime.onMessage`
listener (part_000 lines 718-724 and the following if-chain): look the
handler up in `messageHandlers` by action tag and run it when present;
otherwise run the matching built-in branch (whose body is a parameter
here, since the unknown-action path never reaches one); when no guard
matches, the async listener falls through and its promise resolves with
`undefined`, modelled as `Except.ok none`. -/
def dispatch {ρ : Type}
    (handlers : List (String × (Request → Except JSError (Option ρ))))
    (builtin : String → Request → Except JSError (Option ρ))
    (req : Request) : Except JSError (Option ρ) :=
  match mapGet handlers req.action with
  | some handler => handler req
  | none =>
    if req.action ∈ builtinActions then builtin req.action req
    else Except.ok none

/-- Claim C6: a message whose action has no registered handler and matches
none of the built-in branches resolves to nothing: no error is raised and
no response value is produced, whatever the built-in branches would do. -/
theorem c6_unknown_action_dropped {ρ : Type}
    (handlers : List (String × (Request → Except JSError (Option ρ))))
    (builtin : String → Request → Except JSError (Option ρ))
    (req : Request)
    (hreg : mapGet handlers req.action = none)
    (hbuiltin : req.action ∉ builtinActions) :
    dispatch handlers builtin req = Except.ok none := by
  rw [dispatch, hreg]
  simp [hbuiltin]

/-- Claim C6 witness: an empty registry and a future action tag unknown to
this version of the background page. -/
theorem c6_unknown_action_dropped_witness :
    dispatch ([] : List (String × (Request → Except JSError (Option Nat))))
      (fun _ _ => Except.ok none) { action := "tb-some-future-action" }
      = Except.ok none :=
  c6_unknown_action_dropped [] (fun _ _ => Except.ok none)
    { action := "tb-some-future-action" } rfl (by decide)

/-! ## Credential acquisition and authenticated request proxy

Embeds `getOAuthTokens`, `makeHeaderObject`, `makeRequest` and the
`tb-request` handler (part_000 lines 528-600 and 780-820). -/

/-- Payload fields of a `tb-request` message. -/
structure RequestMsg where
  method : String
  endpoint : String
  data : String
  oauth : Bool
  deriving DecidableEq, Repr

/-- Observable side effects of the request proxy. -/
inductive ReqEffect
  | acquireCredential
  | networkCall (method : String) (url : String)
  deriving DecidableEq, Repr

/-- Result value returned to the sender of a `tb-request` message. -/
inductive ProxyResult
  | success (status : Nat) (body : String)
  | errorResult (errorThrown : String)
  deriving DecidableEq, Repr

/-- Host network environment for one proxied request: the outcome of
credential acquisition (the access token or the error message) and the
outcome the AJAX layer would deliver. -/
structure NetEnv where
  tokens : Except String String
  response : ProxyResult
  deriving Repr

/-- The guard `endpoint.startsWith('/')` of the `tb-request` handler,
written on the character list so that it evaluates inside proofs. -/
def startsWithSlash (s : String) : Bool :=
  match s.data with
  | c :: _ => c == '/'
  | [] => false

/-- Embeds the `tb-request` handler (part_000 lines 780-820): an endpoint
that does not start with a slash is answered immediately with an
`errorThrown` result; otherwise the URL is built from the oauth or plain
host, the OAuth token is acquired first when `oauth` is set (a failure is
returned as an error result without any network call), and the AJAX
request is made. -/
def tbRequest (env : NetEnv) (msg : RequestMsg) : ProxyResult × List ReqEffect :=
  if !startsWithSlash msg.endpoint then
    (ProxyResult.errorResult
      ("Request endpoint " ++ msg.endpoint ++ " does not start with a slash"), [])
  else
    let host := "https://" ++ (if msg.oauth then "oauth" else "old") ++ ".reddit.com"
    if msg.oauth then
      match env.tokens with
      | Except.ok _accessToken =>
        (env.response,
         [ReqEffect.acquireCredential,
          ReqEffect.networkCall msg.method (host ++ msg.endpoint)])
      | Except.error e =>
        (ProxyResult.errorResult ("Error: " ++ e), [ReqEffect.acquireCredential])
    else
      (env.response, [ReqEffect.networkCall msg.method (host ++ msg.endpoint)])

/-- Claim C8: a proxied request whose endpoint does not begin with a slash
is answered with a structured error result, and neither a network call nor
a credential acquisition is performed. -/
theorem c8_bad_endpoint_no_network (env : NetEnv) (msg : RequestMsg)
    (h : startsWithSlash msg.endpoint = false) :
    (tbRequest env msg).1 = ProxyResult.errorResult
      ("Request endpoint " ++ msg.endpoint ++ " does not start with a slash") ∧
    (tbRequest env msg).2 = [] := by
  rw [tbRequest]
  simp [h]

/-- Concrete network environment for the C8 witness. -/
def c8Env : NetEnv :=
  { tokens := Except.error "user not logged into new modmail",
    response := ProxyResult.success 200 "ok" }

/-- Concrete malformed request for the C8 witness. -/
def c8Msg : RequestMsg :=
  { method := "GET", endpoint := "api/foo", data := "", oauth := true }

/-- Claim C8 witness: the endpoint `api/foo` from the spec example. -/
theorem c8_bad_endpoint_no_network_witness :
    (tbRequest c8Env c8Msg).1 = ProxyResult.errorResult
      ("Request endpoint " ++ c8Msg.endpoint ++ " does not start with a slash") ∧
    (tbRequest c8Env c8Msg).2 = [] :=
  c8_bad_endpoint_no_network c8Env c8Msg (by decide)

/-! ## Cache message handler: tb-cache get (part_000 lines 822-848) -/

/-- JSON values as produced by the host `JSON.parse`. -/
inductive JSValue
  | null
  | bool (b : Bool)
  | num (n : Int)
  | str (s : String)
  | arr (xs : List JSValue)
  | obj (fields : List (String × JSValue))

/-- Response object built by the `tb-cache` get branch. -/
structure CacheGetResult where
  value : JSValue
  errorThrown : Option String

/-- Embeds the `tb-cache` get branch (part_000 lines 825-848): a missing
key answers with the supplied default; a stored string is fed to
`JSON.parse` (passed in as `parse` since it is a host builtin; a parse
failure carries the message of the thrown SyntaxError, whose JS
`toString` starts with the error name); on failure the default is
substituted and the stringified error reported alongside; a successfully
parsed `null` is also replaced by a non-null default. -/
def tbCacheGet (parse : String → Except String JSValue)
    (storage : String → Option String) (storageKey : String) (inputValue : JSValue) :
    CacheGetResult :=
  match storage storageKey with
  | none => { value := inputValue, errorThrown := none }
  | some storageString =>
    let result : CacheGetResult :=
      match parse storageString with
      | Except.ok v => { value := v, errorThrown := none }
      | Except.error e =>
        { value := inputValue, errorThrown := some ("SyntaxError: " ++ e) }
    match result.value, inputValue with
    | JSValue.null, JSValue.null => result
    | JSValue.null, _ => { result with value := inputValue }
    | _, _ => result

/-- Claim C9: for every JSON parser behavior, a stored string that fails
to parse makes the get branch answer with the caller-supplied default and
a non-empty error description, without throwing. -/
theorem c9_corrupted_cache_get (parse : String → Except String JSValue)
    (storage : String → Option String) (key : String) (dflt : JSValue) (s e : String)
    (hs : storage key = some s) (hp : parse s = Except.error e) :
    (tbCacheGet parse storage key dflt).value = dflt ∧
    (∃ msg, (tbCacheGet parse storage key dflt).errorThrown = some msg ∧ msg ≠ "") := by
  have hres : tbCacheGet parse storage key dflt
      = { value := dflt, errorThrown := some ("SyntaxError: " ++ e) } := by
    rw [tbCacheGet, hs]
    simp only [hp]
    cases dflt <;> rfl
  rw [hres]
  refine ⟨rfl, "SyntaxError: " ++ e, rfl, ?_⟩
  intro hemp
  have hlen := congrArg String.length hemp
  rw [String.length_append] at hlen
  have h13 : ("SyntaxError: " : String).length = 13 := rfl
  have h0 : ("" : String).length = 0 := rfl
  omega

/-- Partial model of the host `JSON.parse` used only to instantiate the
C9 witness: it accepts the two sentinel container literals and `null` and
throws on everything else, as `JSON.parse` does on a corrupted word. -/
def c9Parse : String → Except String JSValue := fun s =>
  if s == "\x7b\x7d" then Except.ok (JSValue.obj [])
  else if s == "[]" then Except.ok (JSValue.arr [])
  else if s == "null" then Except.ok JSValue.null
  else Except.error ("Unexpected token " ++ s.take 1 ++ " in JSON at position 0")

/-- Storage containing one corrupted entry under key X. -/
def c9Storage : String → Option String := fun k =>
  if k == "X" then some "corrupted**" else none

/-- Claim C9 witness: the corrupted stored word under key X yields the
default empty array plus a non-empty error message. -/
theorem c9_corrupted_cache_get_witness :
    (tbCacheGet c9Parse c9Storage "X" (JSValue.arr [])).value = JSValue.arr [] ∧
    (∃ msg, (tbCacheGet c9Parse c9Storage "X" (JSValue.arr [])).errorThrown = some msg ∧
      msg ≠ "") :=
  c9_corrupted_cache_get c9Parse c9Storage "X" (JSValue.arr []) "corrupted**"
    ("Unexpected token " ++ "corrupted**".take 1 ++ " in JSON at position 0") rfl rfl

/-! ## Credential acquisition: getOAuthTokens (part_000 lines 528-562) -/

/-- The raw cookie object delivered by `chrome.cookies.get`: its value and
its expiration timestamp in seconds. -/
structure RawCookie where
  value : String
  expirationDate : Int
  deriving DecidableEq, Repr

/-- A character of the base64 alphabet, per the RegExp
`[^A-Za-z0-9+/].*?$` of the source. -/
def isBase64Char (c : Char) : Bool :=
  c.isAlpha || c.isDigit || c == '+' || c == '/'

/-- The `replace(invalidChar, ...)` cleanup: everything from the first
character outside the base64 alphabet to the end of the string is
dropped. -/
def stripTrailingInvalid (s : String) : String :=
  String.mk (s.data.takeWhile isBase64Char)

/-- The freshness test of the source: no cookie at all, or a cookie whose
expiration (seconds, scaled by 1000) lies before the current time. -/
def cookieBad (now : Int) (c : Option RawCookie) : Bool :=
  match c with
  | none => true
  | some rawCookie => decide (now > rawCookie.expirationDate * 1000)

/-- Outcome of a terminated `getOAuthTokens` promise. -/
inductive OAuthOutcome
  | token (payload : String)
  | notAuthenticated
  deriving DecidableEq, Repr

/-- Embeds `getOAuthTokens` (part_000 lines 528-562). `cookies k` is the
cookie the store returns to the k-th `chrome.cookies.get` call. The source
recurses with `getOAuthTokens(tries++)`: the post-increment hands the OLD
value of `tries` to the recursive call, and this embedding reproduces
exactly that. The recursion is not structurally bounded, so it runs on
explicit fuel: the first component is `none` while the fuel runs out with
the promise still unsettled, and the second component counts the cookie
retrieval attempts performed. -/
def getOAuthTokens (cookies : Nat → Option RawCookie) (now : Int) :
    Nat → Nat → Nat → Option OAuthOutcome × Nat
  | _, _, 0 => (none, 0)
  | tries, call, fuel + 1 =>
    let rawCookie := cookies call
    if cookieBad now rawCookie ∧ tries < 3 then
      let r := getOAuthTokens cookies now tries (call + 1) fuel
      (r.1, r.2 + 1)
    else if cookieBad now rawCookie ∧ tries > 2 then
      (some OAuthOutcome.notAuthenticated, 1)
    else
      (some (OAuthOutcome.token
        (stripTrailingInvalid ((rawCookie.map RawCookie.value).getD ""))), 1)

/-- A cookie store in which the token cookie is always missing. -/
def alwaysMissing : Nat → Option RawCookie := fun _ => none

/-- Claim C1: `getOAuthTokens` with the always-missing cookie store and
the default attempt counter 1 never settles: however much fuel the
recursion is granted, it performs one cookie retrieval per unit of fuel
and produces no outcome, because `tries++` passes the old counter value
to the recursive call, so the not-authenticated branch is unreachable. -/
theorem c1_unbounded_retry :
    ∀ (fuel call : Nat), getOAuthTokens alwaysMissing 0 1 call fuel = (none, fuel) := by
  intro fuel
  induction fuel with
  | zero => intro call; rfl
  | succ n ih =>
    intro call
    rw [getOAuthTokens]
    have hbad : cookieBad 0 (alwaysMissing call) = true := rfl
    simp only [hbad]
    rw [ih (call + 1)]
    simp

/-- The pre-incremented variant. Modelled from the spec: the design notes
require the attempt count passed to the recursive call to be
pre-incremented (`tries + 1`), which the source comment about trying three
times also intends; only the recursion argument differs from
`getOAuthTokens`. -/
def getOAuthTokensPreInc (cookies : Nat → Option RawCookie) (now : Int) :
    Nat → Nat → Nat → Option OAuthOutcome × Nat
  | _, _, 0 => (none, 0)
  | tries, call, fuel + 1 =>
    let rawCookie := cookies call
    if cookieBad now rawCookie ∧ tries < 3 then
      let r := getOAuthTokensPreInc cookies now (tries + 1) (call + 1) fuel
      (r.1, r.2 + 1)
    else if cookieBad now rawCookie ∧ tries > 2 then
      (some OAuthOutcome.notAuthenticated, 1)
    else
      (some (OAuthOutcome.token
        (stripTrailingInvalid ((rawCookie.map RawCookie.value).getD ""))), 1)

/-- The intended behavior the source comments describe: with an
always-missing cookie, the pre-incremented recursion makes exactly 3
retrieval attempts and then settles on the not-authenticated error. -/
theorem oauth_preinc_three_attempts (fuel call : Nat) :
    getOAuthTokensPreInc alwaysMissing 0 1 call (fuel + 3)
      = (some OAuthOutcome.notAuthenticated, 3) := by
  rw [getOAuthTokensPreInc]
  simp only [show cookieBad 0 (alwaysMissing call) = true from rfl]
  rw [getOAuthTokensPreInc]
  simp only [show cookieBad 0 (alwaysMissing (call + 1)) = true from rfl]
  rw [getOAuthTokensPreInc]
  simp only [show cookieBad 0 (alwaysMissing (call + 1 + 1)) = true from rfl]
  norm_num
